import Mathlib

/-!
Shallow embedding of the pharmacy inventory/sales tracker's domain layer:
the pure predicates and metrics of `src/utils.ts`, the catalog mutation
handlers of `src/App.tsx` (`handleAddMedicine`, `handleUpdateMedicine`,
`handleDeleteMedicine`, `handleSell`), and the sale-form validation
`handleSubmit` of `src/components/SalesTable.tsx`.

Modelling conventions:
* Calendar instants (`new Date(...)`, `Date.now()`) are epoch milliseconds,
  an `Int`; the ambient wall clock is threaded as an explicit `now` argument.
* Currency amounts (`price`, `totalAmount`) are rationals `ℚ`; sold
  quantities (`parseInt` results) and stock counts are `Int`.
* The `alert(...)`-and-return failure paths are reified as a typed
  `SaleError` value; React state updates (`setMedicines` / `setSales`)
  become the returned pair of collections.
-/

namespace Pharmacy

/-- The `Medicine` record of `src/types.ts`. -/
structure Medicine where
  id : String
  name : String
  supplier : String
  price : ℚ
  quantity : Int
  expiryDate : Int
  plu : String
  category : String
  deriving DecidableEq, Repr

/-- The `Sale` record of `src/types.ts`. -/
structure Sale where
  id : String
  customerName : String
  medicineId : String
  medicineName : String
  quantity : Int
  price : ℚ
  totalAmount : ℚ
  dateTime : Int
  deriving DecidableEq, Repr

/-- `Omit<Medicine, 'id'>`: the form payload of the add/edit modal. -/
structure MedicineData where
  name : String
  supplier : String
  price : ℚ
  quantity : Int
  expiryDate : Int
  plu : String
  category : String
  deriving DecidableEq, Repr

/-- `Omit<Sale, 'id' | 'dateTime'>`: the payload `handleSubmit` passes to `onSell`. -/
structure SaleData where
  customerName : String
  medicineId : String
  medicineName : String
  quantity : Int
  price : ℚ
  totalAmount : ℚ
  deriving DecidableEq, Repr

/-- The `DashboardMetrics` record of `src/types.ts`. -/
structure DashboardMetrics where
  totalInventoryValue : ℚ
  totalSales : ℚ
  lowStockItems : Nat
  expiredItems : Nat
  deriving DecidableEq, Repr

/-- `isExpired` of `src/utils.ts`: `new Date(expiryDate) < new Date()`. -/
def isExpired (expiryDate now : Int) : Bool :=
  expiryDate < now

/-- `isLowStock` of `src/utils.ts`: `quantity < 5`. -/
def isLowStock (quantity : Int) : Bool :=
  quantity < 5

/-- The divisor `1000 * 60 * 60 * 24` of `isNearExpiry`. -/
def msPerDay : Int := 1000 * 60 * 60 * 24

/-- `Math.ceil` of the exact quotient `a / b` for `b > 0`, as used on
`diffTime / (1000 * 60 * 60 * 24)`. -/
def ceilDiv (a b : Int) : Int :=
  -((-a).fdiv b)

/-- `isNearExpiry` of `src/utils.ts`: `diffDays > 0 && diffDays <= daysThreshold`
where `diffDays = Math.ceil((expiry - today) / msPerDay)`; default threshold 90. -/
def isNearExpiry (expiryDate now daysThreshold : Int) : Bool :=
  let diffDays := ceilDiv (expiryDate - now) msPerDay
  decide (0 < diffDays) && decide (diffDays ≤ daysThreshold)

/-- `getMedicineStatus` of `src/utils.ts`. -/
def getMedicineStatus (medicine : Medicine) (now : Int) : String :=
  if isExpired medicine.expiryDate now then "Expired"
  else if isLowStock medicine.quantity then "Low Stock"
  else "In Stock"

/-- `calculateMetrics` of `src/utils.ts`: two `reduce`s and two `filter(...).length`s. -/
def calculateMetrics (medicines : List Medicine) (sales : List Sale) (now : Int) :
    DashboardMetrics :=
  { totalInventoryValue := medicines.foldl (fun sum med => sum + med.price * med.quantity) 0
    totalSales := sales.foldl (fun sum sale => sum + sale.totalAmount) 0
    lowStockItems :=
      (medicines.filter (fun med => isLowStock med.quantity && !isExpired med.expiryDate now)).length
    expiredItems := (medicines.filter (fun med => isExpired med.expiryDate now)).length }

/-- The typed failures of the sale path (§7 of the spec): `NotFound` is the
`'Please select a medicine'` alert, `InsufficientStock` the two
`'Insufficient stock'` alerts, `InvalidQuantity` the
`'Quantity must be greater than 0'` alert. -/
inductive SaleError where
  | NotFound
  | InsufficientStock
  | InvalidQuantity
  deriving DecidableEq, Repr

/-- `handleAddMedicine` of `src/App.tsx`: append `{...medicineData, id: generateId()}`. -/
def handleAddMedicine (medicines : List Medicine) (medicineData : MedicineData)
    (newId : String) : List Medicine :=
  medicines ++ [{ id := newId, name := medicineData.name, supplier := medicineData.supplier,
                  price := medicineData.price, quantity := medicineData.quantity,
                  expiryDate := medicineData.expiryDate, plu := medicineData.plu,
                  category := medicineData.category }]

/-- `handleUpdateMedicine` of `src/App.tsx`: map, replacing the entry whose id matches. -/
def handleUpdateMedicine (medicines : List Medicine) (id : String)
    (medicineData : MedicineData) : List Medicine :=
  medicines.map (fun med =>
    if med.id == id then
      { id := id, name := medicineData.name, supplier := medicineData.supplier,
        price := medicineData.price, quantity := medicineData.quantity,
        expiryDate := medicineData.expiryDate, plu := medicineData.plu,
        category := medicineData.category }
    else med)

/-- `handleDeleteMedicine` of `src/App.tsx`: filter out the matching id. -/
def handleDeleteMedicine (medicines : List Medicine) (id : String) : List Medicine :=
  medicines.filter (fun med => med.id != id)

/-- The `Sale` record built at `src/App.tsx:58-62`: `{...saleData, id: generateId(),
dateTime: new Date().toISOString()}`. -/
def mkSale (saleData : SaleData) (newId : String) (now : Int) : Sale :=
  { id := newId, customerName := saleData.customerName,
    medicineId := saleData.medicineId, medicineName := saleData.medicineName,
    quantity := saleData.quantity, price := saleData.price,
    totalAmount := saleData.totalAmount, dateTime := now }

/-- The stock update of `src/App.tsx:65-69`: map over the catalog, decrementing
the quantity of every entry whose id matches `saleData.medicineId`. -/
def decrementStock (mid : String) (q : Int) (medicines : List Medicine) : List Medicine :=
  medicines.map (fun med =>
    if med.id == mid then { med with quantity := med.quantity - q } else med)

/-- `handleSell` of `src/App.tsx:51-72`. Returns the new `(medicines, sales)`
state together with the error signalled, if any; the failing branch leaves
both collections untouched, exactly as the early `return` does. -/
def handleSell (medicines : List Medicine) (sales : List Sale) (saleData : SaleData)
    (newId : String) (now : Int) : (List Medicine × List Sale) × Option SaleError :=
  match medicines.find? (fun m => m.id == saleData.medicineId) with
  | none => ((medicines, sales), some .InsufficientStock)
  | some medicine =>
    if medicine.quantity < saleData.quantity then
      ((medicines, sales), some .InsufficientStock)
    else
      ((decrementStock saleData.medicineId saleData.quantity medicines,
        mkSale saleData newId now :: sales), none)

/-- `handleSubmit` of `src/components/SalesTable.tsx:34-70` composed with the
`onSell` it invokes (`handleSell`): resolve the medicine (`NotFound`), check
`quantity > medicine.quantity` (`InsufficientStock`), check `quantity <= 0`
(`InvalidQuantity`), then build `saleData` (snapshotting name and price,
`totalAmount = price * quantity`) and commit via `handleSell`. -/
def handleSubmit (medicines : List Medicine) (sales : List Sale)
    (customerName medicineId : String) (quantity : Int) (newId : String) (now : Int) :
    (List Medicine × List Sale) × Option SaleError :=
  match medicines.find? (fun m => m.id == medicineId) with
  | none => ((medicines, sales), some .NotFound)
  | some medicine =>
    if medicine.quantity < quantity then
      ((medicines, sales), some .InsufficientStock)
    else if quantity ≤ 0 then
      ((medicines, sales), some .InvalidQuantity)
    else
      handleSell medicines sales
        { customerName := customerName, medicineId := medicine.id,
          medicineName := medicine.name, quantity := quantity,
          price := medicine.price, totalAmount := medicine.price * quantity }
        newId now

/-- `availableMedicines` of `src/components/SalesTable.tsx:21-23`: the selection
list offered by the New Sale modal. -/
def availableMedicines (medicines : List Medicine) (now : Int) : List Medicine :=
  medicines.filter (fun med => !isExpired med.expiryDate now && med.quantity > 0)

/-! ## Helper lemmas -/

theorem find?_decrementStock (medicines : List Medicine) (mid : String) (q : Int) :
    (decrementStock mid q medicines).find? (fun x => x.id == mid) =
      Option.map (fun med =>
          if med.id == mid then { med with quantity := med.quantity - q } else med)
        (medicines.find? (fun x => x.id == mid)) := by
  unfold decrementStock
  have hp : ((fun (x : Medicine) => x.id == mid) ∘ fun (med : Medicine) =>
      if med.id == mid then { med with quantity := med.quantity - q } else med) =
      (fun (x : Medicine) => x.id == mid) := by
    funext med
    by_cases h : (med.id == mid) = true <;> simp [Function.comp, h]
  rw [List.find?_map, hp]

/-- Evaluation of the composed sale path when every validation passes. -/
theorem submit_ok (medicines : List Medicine) (sales : List Sale)
    (customerName medicineId : String) (quantity : Int) (newId : String) (now : Int)
    (m : Medicine) (hfind : medicines.find? (fun x => x.id == medicineId) = some m)
    (hpos : 0 < quantity) (hle : quantity ≤ m.quantity) :
    handleSubmit medicines sales customerName medicineId quantity newId now =
      ((decrementStock medicineId quantity medicines,
        mkSale { customerName := customerName, medicineId := m.id,
                 medicineName := m.name, quantity := quantity, price := m.price,
                 totalAmount := m.price * quantity } newId now :: sales), none) := by
  have hbeq : (m.id == medicineId) = true := by
    have h := List.find?_some hfind
    simpa using h
  have hid : m.id = medicineId := eq_of_beq hbeq
  unfold handleSubmit
  rw [hfind]
  simp only [if_neg (by omega : ¬ m.quantity < quantity),
    if_neg (by omega : ¬ quantity ≤ 0)]
  unfold handleSell
  simp only [hid, hfind, if_neg (by omega : ¬ m.quantity < quantity)]

/-! ## Claim theorems -/

/-- C1: if the sale request's medicineId resolves to a medicine `m` with current
quantity `Q` and `0 < q ≤ Q`, the commit succeeds: no error, the catalog now
resolves `medicineId` to `m` with quantity `Q - q`, and exactly one new `Sale`
record with `totalAmount = m.price * q` is prepended to the sales history. -/
theorem sale_commit_success (medicines : List Medicine) (sales : List Sale)
    (customerName medicineId : String) (quantity : Int) (newId : String) (now : Int)
    (m : Medicine) (hfind : medicines.find? (fun x => x.id == medicineId) = some m)
    (hpos : 0 < quantity) (hle : quantity ≤ m.quantity) :
    (handleSubmit medicines sales customerName medicineId quantity newId now).2 = none ∧
    (∃ sale : Sale, sale.totalAmount = m.price * quantity ∧
      (handleSubmit medicines sales customerName medicineId quantity newId now).1.2 =
        sale :: sales) ∧
    ((handleSubmit medicines sales customerName medicineId quantity newId now).1.1).find?
        (fun x => x.id == medicineId) =
      some { m with quantity := m.quantity - quantity } := by
  have hbeq : (m.id == medicineId) = true := by
    have h := List.find?_some hfind
    simpa using h
  rw [submit_ok medicines sales customerName medicineId quantity newId now m hfind hpos hle]
  refine ⟨rfl, ⟨_, rfl, rfl⟩, ?_⟩
  rw [find?_decrementStock, hfind]
  have hid : m.id = medicineId := eq_of_beq hbeq
  simp [hid]

/-- C1 witness: a catalog with one medicine priced 10 with stock 3; selling
exactly 3 succeeds, exhausts the stock, and prepends a sale of total 30. -/
theorem sale_commit_success_witness :
    (handleSubmit [⟨"m1", "Paracetamol", "Acme", 10, 3, 1000, "p1", "analgesic"⟩]
        [] "alice" "m1" 3 "s1" 500).2 = none ∧
    (∃ sale : Sale, sale.totalAmount = 30 ∧
      (handleSubmit [⟨"m1", "Paracetamol", "Acme", 10, 3, 1000, "p1", "analgesic"⟩]
          [] "alice" "m1" 3 "s1" 500).1.2 = sale :: []) ∧
    ((handleSubmit [⟨"m1", "Paracetamol", "Acme", 10, 3, 1000, "p1", "analgesic"⟩]
        [] "alice" "m1" 3 "s1" 500).1.1).find? (fun x => x.id == "m1") =
      some ⟨"m1", "Paracetamol", "Acme", 10, 0, 1000, "p1", "analgesic"⟩ := by
  have h := sale_commit_success
    [⟨"m1", "Paracetamol", "Acme", 10, 3, 1000, "p1", "analgesic"⟩] []
    "alice" "m1" 3 "s1" 500
    ⟨"m1", "Paracetamol", "Acme", 10, 3, 1000, "p1", "analgesic"⟩
    rfl (by norm_num) (by norm_num)
  refine ⟨h.1, ?_, ?_⟩
  · obtain ⟨sale, hs, hl⟩ := h.2.1
    exact ⟨sale, by rw [hs]; norm_num, hl⟩
  · exact h.2.2

/-- A concrete catalog entry used by the concrete instantiations below:
price 10, stock 3, expiry instant 1000. -/
def med1 : Medicine :=
  { id := "m1", name := "Paracetamol", supplier := "Acme", price := 10, quantity := 3,
    expiryDate := 1000, plu := "p1", category := "analgesic" }

/-- C2: when the request's medicineId resolves to `m`, the sale fails with
`InsufficientStock` exactly when the requested quantity exceeds `m`'s current
quantity, and on that failure the catalog and the sales history are returned
unchanged (no partial effect). -/
theorem insufficient_stock_iff (medicines : List Medicine) (sales : List Sale)
    (c medicineId : String) (q : Int) (newId : String) (now : Int) (m : Medicine)
    (hfind : medicines.find? (fun x => x.id == medicineId) = some m) :
    ((handleSubmit medicines sales c medicineId q newId now).2 =
        some SaleError.InsufficientStock ↔ m.quantity < q) ∧
    (m.quantity < q →
      handleSubmit medicines sales c medicineId q newId now =
        ((medicines, sales), some SaleError.InsufficientStock)) := by
  by_cases h1 : m.quantity < q
  · have he : handleSubmit medicines sales c medicineId q newId now =
        ((medicines, sales), some SaleError.InsufficientStock) := by
      unfold handleSubmit
      rw [hfind]
      simp only [if_pos h1]
    exact ⟨⟨fun _ => h1, fun _ => by rw [he]⟩, fun _ => he⟩
  · refine ⟨⟨fun hc => ?_, fun hc => absurd hc h1⟩, fun hc => absurd hc h1⟩
    by_cases h2 : q ≤ 0
    · have he : handleSubmit medicines sales c medicineId q newId now =
          ((medicines, sales), some SaleError.InvalidQuantity) := by
        unfold handleSubmit
        rw [hfind]
        simp only [if_neg h1, if_pos h2]
      rw [he] at hc
      simp at hc
    · rw [submit_ok medicines sales c medicineId q newId now m hfind (by omega) (by omega)]
        at hc
      simp at hc

/-- C2 witness: selling 4 units of a medicine with stock 3 fails with
`InsufficientStock`, leaving both collections untouched. -/
theorem insufficient_stock_iff_witness :
    handleSubmit [med1] [] "alice" "m1" 4 "s1" 500 =
      (([med1], []), some SaleError.InsufficientStock) :=
  (insufficient_stock_iff [med1] [] "alice" "m1" 4 "s1" 500 med1 rfl).2 (by norm_num [med1])

/-- C3 counterexample: a request with quantity 0 whose medicineId resolves to no
medicine fails with `NotFound`, not `InvalidQuantity`: the `NotFound` check runs
before the quantity check, so the claim's unconditional "q ≤ 0 implies
InvalidQuantity" is false. -/
theorem invalid_quantity_cex :
    (0 : Int) ≤ 0 ∧
    (handleSubmit [] [] "alice" "mX" 0 "s1" 0).2 ≠ some SaleError.InvalidQuantity ∧
    (handleSubmit [] [] "alice" "mX" 0 "s1" 0).2 = some SaleError.NotFound :=
  ⟨by decide, by decide, rfl⟩

/-- C3 amended: for every sale request whose medicineId resolves to a medicine
with non-negative current quantity, a requested quantity `q ≤ 0` fails with
`InvalidQuantity`, and the catalog and sales history are returned unchanged. -/
theorem invalid_quantity_amended (medicines : List Medicine) (sales : List Sale)
    (c medicineId : String) (q : Int) (newId : String) (now : Int) (m : Medicine)
    (hfind : medicines.find? (fun x => x.id == medicineId) = some m)
    (hq0 : 0 ≤ m.quantity) (hq : q ≤ 0) :
    handleSubmit medicines sales c medicineId q newId now =
      ((medicines, sales), some SaleError.InvalidQuantity) := by
  unfold handleSubmit
  rw [hfind]
  simp only [if_neg (show ¬ m.quantity < q by omega), if_pos hq]

/-- C3 witness: selling quantity 0 of an in-catalog medicine fails with
`InvalidQuantity` and changes nothing. -/
theorem invalid_quantity_amended_witness :
    handleSubmit [med1] [] "alice" "m1" 0 "s1" 500 =
      (([med1], []), some SaleError.InvalidQuantity) :=
  invalid_quantity_amended [med1] [] "alice" "m1" 0 "s1" 500 med1 rfl
    (by norm_num [med1]) (by norm_num)

/-- C4: a sale request whose medicineId resolves to no medicine in the catalog
fails with `NotFound` — an error distinct from `InsufficientStock` and
`InvalidQuantity` — and the catalog and sales history are returned unchanged. -/
theorem not_found_error (medicines : List Medicine) (sales : List Sale)
    (c medicineId : String) (q : Int) (newId : String) (now : Int)
    (hfind : medicines.find? (fun x => x.id == medicineId) = none) :
    handleSubmit medicines sales c medicineId q newId now =
      ((medicines, sales), some SaleError.NotFound) ∧
    SaleError.NotFound ≠ SaleError.InsufficientStock ∧
    SaleError.NotFound ≠ SaleError.InvalidQuantity := by
  refine ⟨?_, by decide, by decide⟩
  unfold handleSubmit
  rw [hfind]

/-- C4 witness: an id absent from the catalog fails with `NotFound`. -/
theorem not_found_error_witness :
    handleSubmit [med1] [] "alice" "mX" 2 "s1" 500 =
      (([med1], []), some SaleError.NotFound) ∧
    SaleError.NotFound ≠ SaleError.InsufficientStock ∧
    SaleError.NotFound ≠ SaleError.InvalidQuantity :=
  not_found_error [med1] [] "alice" "mX" 2 "s1" 500 rfl

/-- C5: on a successful sale, the record prepended to the history copies
`medicineName` and `price` from the medicine resolved at that instant, has
`totalAmount = price * quantity`, carries the freshly generated id and the
current timestamp, and the rest of the history is unchanged. -/
theorem sale_record_snapshot (medicines : List Medicine) (sales : List Sale)
    (c medicineId : String) (q : Int) (newId : String) (now : Int) (m : Medicine)
    (hfind : medicines.find? (fun x => x.id == medicineId) = some m)
    (hpos : 0 < q) (hle : q ≤ m.quantity) :
    (handleSubmit medicines sales c medicineId q newId now).1.2 =
      { id := newId, customerName := c, medicineId := m.id, medicineName := m.name,
        quantity := q, price := m.price, totalAmount := m.price * q,
        dateTime := now } :: sales := by
  rw [submit_ok medicines sales c medicineId q newId now m hfind hpos hle]
  rfl

/-- C5 witness: selling 2 units of the sample medicine records
`{medicineName := "Paracetamol", price := 10, totalAmount := 20, id := "s1",
dateTime := 500}` at the head of the history. -/
theorem sale_record_snapshot_witness :
    (handleSubmit [med1] [] "alice" "m1" 2 "s1" 500).1.2 =
      [{ id := "s1", customerName := "alice", medicineId := "m1",
         medicineName := "Paracetamol", quantity := 2, price := 10,
         totalAmount := 20, dateTime := 500 }] := by
  have h := sale_record_snapshot [med1] [] "alice" "m1" 2 "s1" 500 med1 rfl
    (by norm_num) (by norm_num [med1])
  have h20 : med1.price * ((2 : Int) : ℚ) = 20 := by norm_num [med1]
  rw [h, h20]
  rfl

/-- C6: the status label is a strict priority order: `"Expired"` exactly when
`isExpired`, else `"Low Stock"` exactly when `quantity < 5` (the `isLowStock`
threshold), else `"In Stock"`; no other label is ever produced. -/
theorem medicine_status_priority (m : Medicine) (now : Int) :
    (getMedicineStatus m now = "Expired" ↔ isExpired m.expiryDate now = true) ∧
    (getMedicineStatus m now = "Low Stock" ↔
      (isExpired m.expiryDate now = false ∧ m.quantity < 5)) ∧
    (getMedicineStatus m now = "In Stock" ↔
      (isExpired m.expiryDate now = false ∧ ¬ m.quantity < 5)) ∧
    (isLowStock m.quantity = true ↔ m.quantity < 5) ∧
    (getMedicineStatus m now = "Expired" ∨ getMedicineStatus m now = "Low Stock" ∨
      getMedicineStatus m now = "In Stock") := by
  cases h1 : isExpired m.expiryDate now <;> by_cases h2 : m.quantity < 5 <;>
    simp [getMedicineStatus, isLowStock, h1, h2]

/-- C7 counterexample: at threshold `t = 0`, the claim's conjunct "true for d
exactly t days ahead" fails: a medicine expiring exactly now (`0 * msPerDay`
ahead) is not near-expiry, because `diffDays > 0` is already false. -/
theorem near_expiry_cex : isNearExpiry (0 + 0 * msPerDay) 0 0 = false := by decide

theorem isNearExpiry_iff (d now t : Int) :
    isNearExpiry d now t = true ↔
      0 < ceilDiv (d - now) msPerDay ∧ ceilDiv (d - now) msPerDay ≤ t := by
  simp [isNearExpiry]

theorem ceilDiv_mul_msPerDay (t : Int) : ceilDiv (t * msPerDay) msPerDay = t := by
  unfold ceilDiv
  rw [show -(t * msPerDay) = -t * msPerDay by ring,
    Int.mul_fdiv_cancel _ (by norm_num [msPerDay])]
  ring

/-- C7 amended: `isNearExpiry d t` is true iff `0 < ceil((d - now) in days) ≤ t`;
consequently it is false for `d` in the past or exactly now and false for `d`
at `t + 1` days ahead, and for every threshold `t ≥ 1` (in particular the
default 90) it is true for `d` exactly `t` days ahead. -/
theorem near_expiry_window (d now t : Int) :
    (isNearExpiry d now t = true ↔
      0 < ceilDiv (d - now) msPerDay ∧ ceilDiv (d - now) msPerDay ≤ t) ∧
    (d ≤ now → isNearExpiry d now t = false) ∧
    (1 ≤ t → isNearExpiry (now + t * msPerDay) now t = true) ∧
    isNearExpiry (now + (t + 1) * msPerDay) now t = false := by
  refine ⟨isNearExpiry_iff d now t, ?_, ?_, ?_⟩
  · intro hd
    have h0 : 0 ≤ (-(d - now)).fdiv msPerDay :=
      Int.fdiv_nonneg (by omega) (by norm_num [msPerDay])
    cases hne : isNearExpiry d now t
    · rfl
    · exfalso
      have hiff := (isNearExpiry_iff d now t).1 hne
      unfold ceilDiv at hiff
      omega
  · intro ht
    rw [isNearExpiry_iff,
      show now + t * msPerDay - now = t * msPerDay by ring, ceilDiv_mul_msPerDay]
    exact ⟨by omega, le_refl t⟩
  · cases hne : isNearExpiry (now + (t + 1) * msPerDay) now t
    · rfl
    · exfalso
      have hiff := (isNearExpiry_iff (now + (t + 1) * msPerDay) now t).1 hne
      rw [show now + (t + 1) * msPerDay - now = (t + 1) * msPerDay by ring,
        ceilDiv_mul_msPerDay] at hiff
      omega

/-- C7 witness: with the default threshold 90 and `now = 0`, an expiry exactly
90 days ahead is near-expiry, one 91 days ahead is not, and one 5 ms in the
past is not. -/
theorem near_expiry_window_witness :
    isNearExpiry (0 + 90 * msPerDay) 0 90 = true ∧
    isNearExpiry (0 + (90 + 1) * msPerDay) 0 90 = false ∧
    isNearExpiry (-5) 0 90 = false :=
  ⟨(near_expiry_window 0 0 90).2.2.1 (by norm_num),
   (near_expiry_window 0 0 90).2.2.2,
   (near_expiry_window (-5) 0 90).2.1 (by norm_num)⟩

theorem foldl_add_eq {α : Type} (f : α → ℚ) (l : List α) (init : ℚ) :
    l.foldl (fun sum x => sum + f x) init = init + (l.map f).sum := by
  induction l generalizing init with
  | nil => simp
  | cons x xs ih => simp [ih, add_assoc]

/-- C8: `calculateMetrics` returns the sum of `price * quantity` over the whole
catalog (expired and zero-stock entries included), the sum of `totalAmount`
over all sales, the count of medicines that are low-stock and not expired, and
the count of expired medicines irrespective of quantity. -/
theorem calculate_metrics_spec (medicines : List Medicine) (sales : List Sale) (now : Int) :
    calculateMetrics medicines sales now =
      { totalInventoryValue :=
          (medicines.map (fun med => med.price * (med.quantity : ℚ))).sum,
        totalSales := (sales.map Sale.totalAmount).sum,
        lowStockItems :=
          medicines.countP (fun med => isLowStock med.quantity && !isExpired med.expiryDate now),
        expiredItems := medicines.countP (fun med => isExpired med.expiryDate now) } := by
  unfold calculateMetrics
  congr 1
  · rw [foldl_add_eq]
    exact zero_add _
  · rw [foldl_add_eq]
    exact zero_add _
  · rw [List.countP_eq_length_filter]
  · rw [List.countP_eq_length_filter]

/-- The per-medicine invariant of §3 of the spec: stock and price never
negative. -/
def MedInv (m : Medicine) : Prop := 0 ≤ m.quantity ∧ 0 ≤ m.price

/-- The catalog-wide invariant: every entry satisfies `MedInv`. -/
def CatalogInv (medicines : List Medicine) : Prop := ∀ m ∈ medicines, MedInv m

/-- C9: each catalog mutation — add, edit, delete, sale commit — preserves the
invariant `quantity ≥ 0 ∧ price ≥ 0`, given that the form payload of add/edit
satisfies it (form input is validated by the presentation layer) and that
catalog ids are unique (the data model's id contract). -/
theorem catalog_mutations_preserve_inv (medicines : List Medicine) (sales : List Sale)
    (hinv : CatalogInv medicines) :
    (∀ d newId, 0 ≤ d.quantity → 0 ≤ d.price →
      CatalogInv (handleAddMedicine medicines d newId)) ∧
    (∀ id d, 0 ≤ d.quantity → 0 ≤ d.price →
      CatalogInv (handleUpdateMedicine medicines id d)) ∧
    (∀ id, CatalogInv (handleDeleteMedicine medicines id)) ∧
    (∀ c mid q newId now, (medicines.map Medicine.id).Nodup →
      CatalogInv (handleSubmit medicines sales c mid q newId now).1.1) := by
  refine ⟨?_, ?_, ?_, ?_⟩
  · intro d newId hq hp m hm
    unfold handleAddMedicine at hm
    rw [List.mem_append] at hm
    rcases hm with hm | hm
    · exact hinv m hm
    · rw [List.mem_singleton] at hm
      subst hm
      exact ⟨hq, hp⟩
  · intro id d hq hp m hm
    unfold handleUpdateMedicine at hm
    rw [List.mem_map] at hm
    obtain ⟨med, hmed, hfm⟩ := hm
    by_cases h : (med.id == id) = true
    · rw [if_pos h] at hfm
      subst hfm
      exact ⟨hq, hp⟩
    · rw [if_neg h] at hfm
      subst hfm
      exact hinv med hmed
  · intro id m hm
    unfold handleDeleteMedicine at hm
    exact hinv m (List.mem_of_mem_filter hm)
  · intro c mid q newId now hnodup m hm
    cases hfind : medicines.find? (fun x => x.id == mid) with
    | none =>
      unfold handleSubmit at hm
      rw [hfind] at hm
      exact hinv m hm
    | some medicine =>
      by_cases h1 : medicine.quantity < q
      · have he : handleSubmit medicines sales c mid q newId now =
            ((medicines, sales), some SaleError.InsufficientStock) := by
          unfold handleSubmit
          rw [hfind]
          simp only [if_pos h1]
        rw [he] at hm
        exact hinv m hm
      · by_cases h2 : q ≤ 0
        · have he : handleSubmit medicines sales c mid q newId now =
              ((medicines, sales), some SaleError.InvalidQuantity) := by
            unfold handleSubmit
            rw [hfind]
            simp only [if_neg h1, if_pos h2]
          rw [he] at hm
          exact hinv m hm
        · rw [submit_ok medicines sales c mid q newId now medicine hfind (by omega)
            (by omega)] at hm
          have hm' : m ∈ decrementStock mid q medicines := hm
          unfold decrementStock at hm'
          rw [List.mem_map] at hm'
          obtain ⟨med, hmed, hfm⟩ := hm'
          by_cases h : (med.id == mid) = true
          · rw [if_pos h] at hfm
            subst hfm
            have hmede : med = medicine := by
              refine List.inj_on_of_nodup_map hnodup hmed
                (List.mem_of_find?_eq_some hfind) ?_
              have hb : (medicine.id == mid) = true := by
                have hb0 := List.find?_some hfind
                simpa using hb0
              rw [eq_of_beq h, eq_of_beq hb]
            refine ⟨?_, (hinv med hmed).2⟩
            show 0 ≤ med.quantity - q
            have hq : med.quantity = medicine.quantity := by rw [hmede]
            omega
          · rw [if_neg h] at hfm
            subst hfm
            exact hinv med hmed

/-- The form payload used by the C9 witness. -/
def data1 : MedicineData :=
  { name := "Ibuprofen", supplier := "Acme", price := 5, quantity := 7,
    expiryDate := 2000, plu := "p2", category := "analgesic" }

/-- C9 witness: all four mutations applied to the one-entry catalog `[med1]`
(with valid form data and a sale of 2 units) keep every quantity and price
non-negative. -/
theorem catalog_mutations_preserve_inv_witness :
    CatalogInv (handleAddMedicine [med1] data1 "m2") ∧
    CatalogInv (handleUpdateMedicine [med1] "m1" data1) ∧
    CatalogInv (handleDeleteMedicine [med1] "m1") ∧
    CatalogInv (handleSubmit [med1] [] "alice" "m1" 2 "s1" 500).1.1 := by
  have hinv : CatalogInv [med1] := by
    intro m hm
    rw [List.mem_singleton] at hm
    subst hm
    exact ⟨by norm_num [med1], by norm_num [med1]⟩
  have h := catalog_mutations_preserve_inv [med1] [] hinv
  exact ⟨h.1 data1 "m2" (by norm_num [data1]) (by norm_num [data1]),
    h.2.1 "m1" data1 (by norm_num [data1]) (by norm_num [data1]),
    h.2.2.1 "m1",
    h.2.2.2 "alice" "m1" 2 "s1" 500 (by simp [med1])⟩

/-- An expired catalog entry (`expiryDate 100 < now = 500`) used by the C10
witness. -/
def med2 : Medicine :=
  { id := "m2", name := "Aspirin", supplier := "Acme", price := 8, quantity := 3,
    expiryDate := 100, plu := "p3", category := "analgesic" }

/-- C10: the sale-commit path imposes no expiry check: a request against an
expired medicine with `0 < q ≤ Q` succeeds and records the sale exactly as for
a non-expired one, while the presentation layer's selection list
(`availableMedicines`) excludes that medicine. -/
theorem expired_sale_allowed (medicines : List Medicine) (sales : List Sale)
    (c medicineId : String) (q : Int) (newId : String) (now : Int) (m : Medicine)
    (hfind : medicines.find? (fun x => x.id == medicineId) = some m)
    (hexp : isExpired m.expiryDate now = true)
    (hpos : 0 < q) (hle : q ≤ m.quantity) :
    handleSubmit medicines sales c medicineId q newId now =
      ((decrementStock medicineId q medicines,
        mkSale { customerName := c, medicineId := m.id, medicineName := m.name,
                 quantity := q, price := m.price, totalAmount := m.price * q }
          newId now :: sales), none) ∧
    m ∉ availableMedicines medicines now := by
  refine ⟨submit_ok medicines sales c medicineId q newId now m hfind hpos hle, ?_⟩
  intro hmem
  unfold availableMedicines at hmem
  have h := List.of_mem_filter hmem
  simp [hexp] at h

/-- C10 witness: selling 2 of 3 units of the expired `med2` succeeds and
prepends the sale, yet `med2` is absent from the modal's selection list. -/
theorem expired_sale_allowed_witness :
    handleSubmit [med2] [] "bob" "m2" 2 "s2" 500 =
      ((decrementStock "m2" 2 [med2],
        mkSale { customerName := "bob", medicineId := med2.id,
                 medicineName := med2.name, quantity := 2, price := med2.price,
                 totalAmount := med2.price * ((2 : Int) : ℚ) }
          "s2" 500 :: []), none) ∧
    med2 ∉ availableMedicines [med2] 500 :=
  expired_sale_allowed [med2] [] "bob" "m2" 2 "s2" 500 med2 rfl rfl (by norm_num)
    (by norm_num [med2])

end Pharmacy
